import Mathlib

/-!
Verification of the pull-request branch-name checker (`src/main.py`).

The program receives a GitHub webhook request, authenticates it against an
optional shared secret, classifies the payload, extracts a Jira issue key
from the pull-request head branch name with a boundary-aware regular
expression, asks Jira whether the key exists, and pushes a commit status
back to GitHub, mapping every failure to an HTTP code.

The embedding below models the pure control flow of `main.py` directly.
External library effects (HMAC computation, the Jira lookup, the GitHub
status push, JSON parsing of the request body) are parameters of the model:
each is an explicit function supplied in an `Env` / `HttpRequest` record,
and the code's `try/except` collapsing of those effects is modelled with
`Except`.
-/

namespace JiraPrCheck

/-! ## Character classes of the extractor regex

`get_jira_issue_from_branch_name` (main.py lines 74-85) uses
`(?<= |-|_|^)([0-9A-Z][A-Za-z]{1,10}-[0-9]+)(?= |-|_|$)` via `regex.findall`
and returns the first capture, or `None`.
-/

def isAsciiUpper (c : Char) : Bool := decide ('A' ≤ c) && decide (c ≤ 'Z')

def isAsciiLower (c : Char) : Bool := decide ('a' ≤ c) && decide (c ≤ 'z')

def isAsciiAlpha (c : Char) : Bool := isAsciiUpper c || isAsciiLower c

def isAsciiDigit (c : Char) : Bool := decide ('0' ≤ c) && decide (c ≤ '9')

/-- The characters the regex accepts as a lookaround boundary: literal
space, hyphen, underscore (the alternation ` |-|_` in both lookarounds). -/
def isBoundaryChar (c : Char) : Bool :=
  decide (c = ' ') || decide (c = '-') || decide (c = '_')

/-- First character of a key: the regex character class `[0-9A-Z]`. -/
def isLeadChar (c : Char) : Bool := isAsciiDigit c || isAsciiUpper c

/-- The lookbehind `(?<= |-|_|^)` at position `i`: start of string, or the
previous character is a boundary character (`bd` is the boundary class). -/
def lookbehindOkWith (bd : Char → Bool) (s : List Char) (i : Nat) : Bool :=
  decide (i = 0) ||
    (match s[i - 1]? with
     | some c => bd c
     | none => false)

/-- The lookahead `(?= |-|_|$)` at position `j`.  Python's `$` (without
MULTILINE) matches at the end of the string and also just before a newline
that is the last character. -/
def lookaheadOkCode (s : List Char) (j : Nat) : Bool :=
  decide (j = s.length) ||
    (match s[j]? with
     | some c => isBoundaryChar c || (decide (c = '\n') && decide (j + 1 = s.length))
     | none => false)

/-- One attempt of the core pattern `[0-9A-Z][A-Za-z]{1,10}-[0-9]+` at the
head of `t`, with the regex's greedy/backtracking semantics.  Because `-`
is not in `[A-Za-z]` and the lookahead characters are not in `[0-9]`,
backtracking inside the bounded repetitions never produces a match that the
maximal (`takeWhile`) runs miss, so the maximal runs decide the attempt. -/
def matchCore (t : List Char) : Option (List Char) :=
  match t with
  | [] => none
  | c :: rest =>
    if isLeadChar c then
      if 1 ≤ (rest.takeWhile isAsciiAlpha).length ∧ (rest.takeWhile isAsciiAlpha).length ≤ 10 then
        match rest.dropWhile isAsciiAlpha with
        | [] => none
        | c2 :: rest2 =>
          if c2 = '-' then
            if 1 ≤ (rest2.takeWhile isAsciiDigit).length then
              some (c :: ((rest.takeWhile isAsciiAlpha) ++ c2 :: (rest2.takeWhile isAsciiDigit)))
            else none
          else none
      else none
    else none

/-- A full match attempt of the regex at position `i` of `s`: the core
pattern anchored at `i` plus both lookarounds. -/
def matchAt (s : List Char) (i : Nat) : Option (List Char) :=
  match matchCore (s.drop i) with
  | some k =>
    if lookbehindOkWith isBoundaryChar s i && lookaheadOkCode s (i + k.length) then
      some k
    else none
  | none => none

/-- `regex.findall`'s left-to-right scan, restricted to the first match:
try every start position from `i` upward (`fuel` bounds the scan). -/
def scanFrom (s : List Char) : Nat → Nat → Option (List Char)
  | _, 0 => none
  | i, Nat.succ fuel =>
    match matchAt s i with
    | some k => some k
    | none => scanFrom s (i + 1) fuel

/-- `get_jira_issue_from_branch_name` (main.py lines 74-85): first match of
the boundary-guarded key pattern in the branch name, or `none`. -/
def get_jira_issue_from_branch_name (branch_name : String) : Option String :=
  Option.map String.mk (scanFrom branch_name.data 0 (branch_name.data.length + 1))

/-! ## Whole-string key patterns and bounded occurrences -/

/-- `k` matches `lead[A-Za-z]{1,10}-[0-9]+` as a whole string, for a given
lead-character class. -/
def isIssueKeyWith (lead : Char → Bool) (k : List Char) : Bool :=
  match k with
  | [] => false
  | c :: rest =>
    lead c &&
      (decide (1 ≤ (rest.takeWhile isAsciiAlpha).length) &&
        (decide ((rest.takeWhile isAsciiAlpha).length ≤ 10) &&
          (match rest.dropWhile isAsciiAlpha with
           | [] => false
           | c2 :: ds => decide (c2 = '-') && (decide (1 ≤ ds.length) && ds.all isAsciiDigit))))

/-- The key pattern as the code has it: lead class `[0-9A-Z]`. -/
def isIssueKeyCode (k : List Char) : Bool := isIssueKeyWith isLeadChar k

/-- The key pattern as the specification words it: lead class `[A-Z]`. -/
def isIssueKeySpec (k : List Char) : Bool := isIssueKeyWith isAsciiUpper k

/-- `k` occurs in `s` starting at index `i`. -/
def occursAt (s k : List Char) (i : Nat) : Bool :=
  decide ((s.drop i).take k.length = k)

/-- A code-pattern key occurring at `i` with the code's boundary classes on
both sides (space/hyphen/underscore/string edge, plus `$` accepting a final
newline). -/
def boundedKeyAtCode (s k : List Char) (i : Nat) : Bool :=
  isIssueKeyCode k &&
    (occursAt s k i &&
      (lookbehindOkWith isBoundaryChar s i && lookaheadOkCode s (i + k.length)))

/-- The spec's boundary class, reading its word "whitespace" as whitespace:
whitespace, hyphen or underscore. -/
def isSpecBoundaryChar (c : Char) : Bool := c.isWhitespace || decide (c = '-') || decide (c = '_')

def lookaheadOkSpec (s : List Char) (j : Nat) : Bool :=
  decide (j = s.length) ||
    (match s[j]? with
     | some c => isSpecBoundaryChar c
     | none => false)

/-- A spec-pattern key occurring at `i`, bounded as the spec words it:
whitespace, hyphen, underscore, or the string's start/end. -/
def boundedKeyAtSpec (s k : List Char) (i : Nat) : Bool :=
  isIssueKeySpec k &&
    (occursAt s k i &&
      (lookbehindOkWith isSpecBoundaryChar s i && lookaheadOkSpec s (i + k.length)))

/-! ## Data model of the webhook pipeline -/

/-- `get_config` (main.py lines 120-138): the environment-variable bundle.
Every `os.getenv` result is a nullable string. -/
structure Config where
  jira_domain : Option String
  log_level : Nat
  jira_email : Option String
  jira_token : Option String
  github_token : Option String
  github_webhook_secret : Option String
  callback_url : Option String
deriving DecidableEq

/-- The decoded JSON payload, at the granularity the handler inspects it.
`has_pull_request` / `has_pusher` model the membership tests of
`get_payload_type`; the three `head_*` fields model the dictionary chains
`payload["pull_request"]["head"]["ref"/"sha"/"repo"]["full_name"]`, where
`Except.error` is a raised lookup exception (KeyError/TypeError) and
`Except.ok none` on `head_ref` is a JSON `null` branch ref. -/
structure Payload where
  has_pull_request : Bool
  has_pusher : Bool
  head_ref : Except String (Option String)
  head_sha : Except String String
  head_repo_full_name : Except String String

/-- An inbound HTTP request: the `X-Hub-Signature-256` header, the raw body
(`request.get_data()`), and the outcome of `request.get_json()` (which
raises on an unparseable or mis-typed body). -/
structure HttpRequest where
  xHubSignature256 : Option String
  rawBody : String
  getJson : Except String Payload

/-- `github_commit_status` (main.py lines 180-187): the commit-status
outcome record built up during the pipeline. -/
structure CommitStatus where
  commit_sha : Option String
  repository_name : Option String
  github_token : Option String
  message : String
  callback_url : Option String
  status : String
deriving DecidableEq

/-- The external collaborators the handler calls, as explicit functions:
`hmacSha256Hex key msg` is the hex digest of HMAC-SHA256 (the
`hmac.new(...).hexdigest()` call), `jiraLookup` is the whole
`JIRA(...)` construction plus `jira.issue(issue_id)` (error = any raised
exception, with its message), and `pushStatus` is
`push_github_commit_status`'s GitHub API interaction (error = any raised
exception). -/
structure Env where
  hmacSha256Hex : String → String → String
  jiraLookup : Config → String → Except String Unit
  pushStatus : CommitStatus → Except String Unit

/-- `check_payload_secret` (main.py lines 31-59).  With no configured
secret the function returns `True` unconditionally (the earlier
`result = False` for a missing header is overwritten); with a secret it
compares `"sha256=" + hexdigest` to the header, and a missing header
(`None` in the Python comparison) yields `False`. -/
def check_payload_secret (hmacSha256Hex : String → String → String)
    (request : HttpRequest) (config : Config) : Bool :=
  match config.github_webhook_secret with
  | none => true
  | some secret =>
    match request.xHubSignature256 with
    | some github_hash => decide ("sha256=" ++ hmacSha256Hex secret request.rawBody = github_hash)
    | none => false

/-- `get_payload_type` (main.py lines 62-71). -/
def get_payload_type (payload : Payload) : Option String :=
  if payload.has_pull_request then some "pull_request"
  else if payload.has_pusher then some "push"
  else none

/-- `is_jira_issue` (main.py lines 88-108): `result` starts `True` and any
exception from the Jira client turns it to `False`; only an exception-free
lookup keeps `True`. -/
def is_jira_issue (jiraLookup : Config → String → Except String Unit)
    (config : Config) (issue_id : String) : Bool :=
  match jiraLookup config issue_id with
  | Except.ok _ => true
  | Except.error _ => false

/-- `push_github_commit_status` (main.py lines 141-165): entirely a GitHub
API interaction, modelled by the `pushStatus` collaborator. -/
def push_github_commit_status (env : Env) (commit_status : CommitStatus) :
    Except String Unit :=
  env.pushStatus commit_status

/-- The initial `github_commit_status` dict (main.py lines 180-187). -/
def initial_commit_status (config : Config) : CommitStatus :=
  { commit_sha := none
    repository_name := none
    github_token := config.github_token
    message := "failed to check if branch name has a jira issue (probably not)"
    callback_url := config.callback_url
    status := "failure" }

/-- The exception types raised inside the handler's `try` block. -/
inductive PipelineError where
  | webhookNotAuthorized : String → PipelineError
  | notJiraIssue : String → PipelineError
  | otherError : String → PipelineError
deriving DecidableEq

/-- The `try:` block of `jira_github_pr_check` (main.py lines 192-243).
Returns the commit-status record as mutated so far together with either
success or the raised exception.  Mutations made before a raise persist
(the sha/repository fields are filled in as soon as the corresponding
payload lookups succeed, lines 215-218). -/
def pipeline_try (env : Env) (config : Config) (request : HttpRequest) :
    CommitStatus × Except PipelineError Unit :=
  let st0 := initial_commit_status config
  if check_payload_secret env.hmacSha256Hex request config then
    match request.getJson with
    | Except.error e => (st0, Except.error (PipelineError.otherError e))
    | Except.ok payload =>
      if get_payload_type payload = some "pull_request" then
        match payload.head_ref with
        | Except.error e => (st0, Except.error (PipelineError.otherError e))
        | Except.ok none =>
          (st0, Except.error (PipelineError.otherError
            "Github payload is not a proper JSON: github webhook must send a JSON payload in application/json MIME type. Review the webhook settings"))
        | Except.ok (some branch_name) =>
          match payload.head_sha with
          | Except.error e => (st0, Except.error (PipelineError.otherError e))
          | Except.ok sha =>
            match payload.head_repo_full_name with
            | Except.error e =>
              ({ st0 with commit_sha := some sha }, Except.error (PipelineError.otherError e))
            | Except.ok repo_full_name =>
              let st1 := { st0 with
                commit_sha := some sha
                repository_name := some repo_full_name }
              match get_jira_issue_from_branch_name branch_name with
              | none =>
                (st1, Except.error (PipelineError.notJiraIssue
                  ("branch name " ++ branch_name ++ " does not fit the JIRA branch name requirements")))
              | some issue_id =>
                if is_jira_issue env.jiraLookup config issue_id then
                  ({ st1 with
                      message := "branch name (" ++ branch_name ++ ") references a found Jira issue (" ++ issue_id ++ ")"
                      status := "success" }, Except.ok ())
                else
                  (st1, Except.error (PipelineError.notJiraIssue
                    ("branch name " ++ branch_name ++ " does not reference a JIRA issue. Issue Id (" ++ issue_id ++ ") not found in JIRA.")))
      else
        (st0, Except.error (PipelineError.otherError
          "this callback only manages PR webhook. Fix the webhook settings."))
  else
    (st0, Except.error (PipelineError.webhookNotAuthorized "webhook secret do not match"))

/-- The HTTP response body: the bare string `"OK"`, or a
`{"message": ...}` JSON object. -/
inductive ResponseBody where
  | ok : String → ResponseBody
  | message : String → ResponseBody
deriving DecidableEq

/-- The handler's state right after the `except` clauses (main.py line
270): the commit-status record to push, the response body, and the
response code. -/
structure PipelineResponse where
  commit_status : CommitStatus
  body : ResponseBody
  code : Nat
deriving DecidableEq

/-- The `try`/`except` part of `jira_github_pr_check` (main.py lines
172-269): run the pipeline, then map each exception kind to its HTTP code
and record its message in the commit status and the response body. -/
def pipeline_response (env : Env) (config : Config) (request : HttpRequest) :
    PipelineResponse :=
  match pipeline_try env config request with
  | (st, Except.ok _) =>
    { commit_status := st, body := ResponseBody.ok "OK", code := 200 }
  | (st, Except.error (PipelineError.webhookNotAuthorized m)) =>
    { commit_status := { st with message := m }, body := ResponseBody.message m, code := 403 }
  | (st, Except.error (PipelineError.notJiraIssue m)) =>
    { commit_status := { st with message := m }, body := ResponseBody.message m, code := 404 }
  | (st, Except.error (PipelineError.otherError m)) =>
    { commit_status := { st with message := m }, body := ResponseBody.message m, code := 400 }

/-- The full handler result: response body, HTTP code, and the list of
commit-status push attempts made (in order). -/
structure HandlerOutput where
  body : ResponseBody
  code : Nat
  pushed : List CommitStatus
deriving DecidableEq

/-- `jira_github_pr_check` (main.py lines 170-280): the pipeline followed
by the best-effort status push (lines 271-278), which is skipped on 403
and escalates any push failure to a 500 response carrying the push error's
message. -/
def jira_github_pr_check (env : Env) (config : Config) (request : HttpRequest) :
    HandlerOutput :=
  if (pipeline_response env config request).code = 403 then
    { body := (pipeline_response env config request).body
      code := (pipeline_response env config request).code
      pushed := [] }
  else
    match push_github_commit_status env (pipeline_response env config request).commit_status with
    | Except.ok _ =>
      { body := (pipeline_response env config request).body
        code := (pipeline_response env config request).code
        pushed := [(pipeline_response env config request).commit_status] }
    | Except.error e =>
      { body := ResponseBody.message e
        code := 500
        pushed := [(pipeline_response env config request).commit_status] }

/-! ## Concrete fixtures used by the witness theorems -/

def hmacFix : String → String → String := fun key msg => key ++ ":" ++ msg

def configFix : Config :=
  { jira_domain := some "example.atlassian.net"
    log_level := 20
    jira_email := some "bot"
    jira_token := some "tok"
    github_token := some "ghtok"
    github_webhook_secret := none
    callback_url := some "cb" }

def payloadFix : Payload :=
  { has_pull_request := true
    has_pusher := false
    head_ref := Except.ok (some "ABC-123-login")
    head_sha := Except.ok "deadbeef"
    head_repo_full_name := Except.ok "octo/demo" }

def payloadNoKeyFix : Payload :=
  { payloadFix with head_ref := Except.ok (some "hotfix-misc-cleanup") }

def requestFix : HttpRequest :=
  { xHubSignature256 := none, rawBody := "", getJson := Except.ok payloadFix }

def requestNoKeyFix : HttpRequest :=
  { xHubSignature256 := none, rawBody := "", getJson := Except.ok payloadNoKeyFix }

def requestBadJsonFix : HttpRequest :=
  { xHubSignature256 := none, rawBody := "", getJson := Except.error "bad json" }

def envOkFix : Env :=
  { hmacSha256Hex := hmacFix
    jiraLookup := fun _ _ => Except.ok ()
    pushStatus := fun _ => Except.ok () }

def envMissFix : Env :=
  { envOkFix with jiraLookup := fun _ _ => Except.error "issue not found" }

def envPushErrFix : Env :=
  { envOkFix with pushStatus := fun _ => Except.error "bad credentials" }

/-! ## Sanity checks of the extractor on concrete branch names -/

example : get_jira_issue_from_branch_name "prefix-ABC-123-suffix" = some "ABC-123" := by decide

example : get_jira_issue_from_branch_name "feature/ABC-123-login" = none := by decide

example : get_jira_issue_from_branch_name "hotfix-misc-cleanup" = none := by decide

example : get_jira_issue_from_branch_name "1BC-123" = some "1BC-123" := by decide

example : get_jira_issue_from_branch_name "ABC-1 DEF-2" = some "ABC-1" := by decide

example : get_jira_issue_from_branch_name "" = none := by decide

/-! ## Helper lemmas about `takeWhile`/`dropWhile` decompositions -/

theorem takeWhile_dropWhile_of_append (p : Char → Bool) (a r : List Char)
    (ha : ∀ x ∈ a, p x = true)
    (hr : ∀ c t, r = c :: t → p c = false) :
    (a ++ r).takeWhile p = a ∧ (a ++ r).dropWhile p = r := by
  induction a with
  | nil =>
    cases r with
    | nil => exact ⟨rfl, rfl⟩
    | cons c t =>
      simp only [List.nil_append, List.takeWhile_cons, List.dropWhile_cons, hr c t rfl]
      exact ⟨rfl, rfl⟩
  | cons x a ih =>
    have hx : p x = true := ha x (by simp)
    have ih2 := ih (fun y hy => ha y (by simp [hy]))
    simp only [List.cons_append, List.takeWhile_cons, List.dropWhile_cons, hx, if_pos]
    exact ⟨by rw [ih2.1], by rw [ih2.2]⟩

theorem dropWhile_head_false (p : Char → Bool) (l : List Char) :
    ∀ c t, l.dropWhile p = c :: t → p c = false := by
  induction l with
  | nil => intro c t h; simp at h
  | cons x xs ih =>
    intro c t h
    rw [List.dropWhile_cons] at h
    by_cases hx : p x = true
    · rw [if_pos hx] at h; exact ih c t h
    · rw [if_neg hx] at h
      cases h
      exact Bool.eq_false_iff.mpr hx

theorem boundary_not_digit (c : Char) (h : isBoundaryChar c = true) :
    isAsciiDigit c = false := by
  unfold isBoundaryChar at h
  rcases Bool.or_eq_true_iff.mp h with h1 | h1
  · rcases Bool.or_eq_true_iff.mp h1 with h2 | h2
    · rw [of_decide_eq_true h2]; decide
    · rw [of_decide_eq_true h2]; decide
  · rw [of_decide_eq_true h1]; decide

/-! ## Characterizations of the match attempt -/

theorem matchCore_eval (c : Char) (alphas ds r : List Char)
    (hc : isLeadChar c = true)
    (hal : ∀ x ∈ alphas, isAsciiAlpha x = true)
    (h1 : 1 ≤ alphas.length) (h10 : alphas.length ≤ 10)
    (hds : ∀ x ∈ ds, isAsciiDigit x = true) (hds1 : 1 ≤ ds.length)
    (hr : ∀ c2 t2, r = c2 :: t2 → isAsciiDigit c2 = false) :
    matchCore (c :: (alphas ++ '-' :: (ds ++ r))) = some (c :: (alphas ++ '-' :: ds)) := by
  have hAl : (alphas ++ '-' :: (ds ++ r)).takeWhile isAsciiAlpha = alphas ∧
      (alphas ++ '-' :: (ds ++ r)).dropWhile isAsciiAlpha = '-' :: (ds ++ r) :=
    takeWhile_dropWhile_of_append isAsciiAlpha alphas ('-' :: (ds ++ r)) hal
      (fun c2 t2 h => by cases h; decide)
  have hDs : (ds ++ r).takeWhile isAsciiDigit = ds :=
    (takeWhile_dropWhile_of_append isAsciiDigit ds r hds hr).1
  simp only [matchCore, hAl.1, hAl.2, hDs, hc, if_true]
  rw [if_pos ⟨h1, h10⟩, if_pos hds1]

theorem matchCore_eq_some (t k : List Char) (h : matchCore t = some k) :
    ∃ c alphas ds r,
      t = c :: (alphas ++ '-' :: (ds ++ r)) ∧
      k = c :: (alphas ++ '-' :: ds) ∧
      isLeadChar c = true ∧
      (∀ x ∈ alphas, isAsciiAlpha x = true) ∧
      1 ≤ alphas.length ∧ alphas.length ≤ 10 ∧
      (∀ x ∈ ds, isAsciiDigit x = true) ∧ 1 ≤ ds.length ∧
      (∀ c2 t2, r = c2 :: t2 → isAsciiDigit c2 = false) := by
  cases t with
  | nil => simp [matchCore] at h
  | cons c rest =>
    simp only [matchCore] at h
    by_cases hc : isLeadChar c = true
    · rw [hc, if_pos rfl] at h
      by_cases hlen : 1 ≤ (rest.takeWhile isAsciiAlpha).length ∧ (rest.takeWhile isAsciiAlpha).length ≤ 10
      · rw [if_pos hlen] at h
        cases hdw : rest.dropWhile isAsciiAlpha with
        | nil => rw [hdw] at h; exact absurd h (by simp)
        | cons c2 rest2 =>
          rw [hdw] at h
          simp only at h
          by_cases hc2 : c2 = '-'
          · rw [if_pos hc2] at h
            by_cases hd1 : 1 ≤ (rest2.takeWhile isAsciiDigit).length
            · rw [if_pos hd1] at h
              refine ⟨c, rest.takeWhile isAsciiAlpha, rest2.takeWhile isAsciiDigit,
                rest2.dropWhile isAsciiDigit, ?_, ?_, hc, ?_, hlen.1, hlen.2, ?_, hd1, ?_⟩
              · subst hc2
                rw [List.takeWhile_append_dropWhile, ← List.cons_append, ← hdw,
                  List.cons_append, List.takeWhile_append_dropWhile]
              · cases h; rw [hc2]
              · exact fun x hx => List.mem_takeWhile_imp hx
              · exact fun x hx => List.mem_takeWhile_imp hx
              · exact fun c3 t3 hh => dropWhile_head_false isAsciiDigit rest2 c3 t3 hh
            · rw [if_neg hd1] at h; exact absurd h (by simp)
          · rw [if_neg hc2] at h; exact absurd h (by simp)
      · rw [if_neg hlen] at h; exact absurd h (by simp)
    · rw [Bool.not_eq_true] at hc
      simp [hc] at h

theorem isIssueKeyWith_eval (lead : Char → Bool) (c : Char) (alphas ds : List Char)
    (hc : lead c = true)
    (hal : ∀ x ∈ alphas, isAsciiAlpha x = true)
    (h1 : 1 ≤ alphas.length) (h10 : alphas.length ≤ 10)
    (hds : ∀ x ∈ ds, isAsciiDigit x = true) (hds1 : 1 ≤ ds.length) :
    isIssueKeyWith lead (c :: (alphas ++ '-' :: ds)) = true := by
  have hAl : (alphas ++ '-' :: ds).takeWhile isAsciiAlpha = alphas ∧
      (alphas ++ '-' :: ds).dropWhile isAsciiAlpha = '-' :: ds :=
    takeWhile_dropWhile_of_append isAsciiAlpha alphas ('-' :: ds) hal
      (fun c2 t2 h => by cases h; decide)
  simp only [isIssueKeyWith, hAl.1, hAl.2]
  simp only [Bool.and_eq_true, decide_eq_true_eq, List.all_eq_true]
  exact ⟨hc, h1, h10, trivial, hds1, hds⟩

theorem isIssueKeyWith_elim (lead : Char → Bool) (k : List Char)
    (h : isIssueKeyWith lead k = true) :
    ∃ c alphas ds, k = c :: (alphas ++ '-' :: ds) ∧ lead c = true ∧
      (∀ x ∈ alphas, isAsciiAlpha x = true) ∧ 1 ≤ alphas.length ∧ alphas.length ≤ 10 ∧
      (∀ x ∈ ds, isAsciiDigit x = true) ∧ 1 ≤ ds.length := by
  cases k with
  | nil => simp [isIssueKeyWith] at h
  | cons c rest =>
    simp only [isIssueKeyWith] at h
    cases hdw : rest.dropWhile isAsciiAlpha with
    | nil => rw [hdw] at h; simp at h
    | cons c2 ds =>
      rw [hdw] at h
      simp only [Bool.and_eq_true, decide_eq_true_eq, List.all_eq_true] at h
      obtain ⟨hc, h1, h10, hc2, hds1, hds⟩ := h
      refine ⟨c, rest.takeWhile isAsciiAlpha, ds, ?_, hc,
        fun x hx => List.mem_takeWhile_imp hx, h1, h10, hds, hds1⟩
      rw [← hc2, ← hdw, List.takeWhile_append_dropWhile]

theorem matchAt_eq_some (s k : List Char) (i : Nat) (h : matchAt s i = some k) :
    boundedKeyAtCode s k i = true := by
  unfold matchAt at h
  cases hmc : matchCore (s.drop i) with
  | none => rw [hmc] at h; simp at h
  | some k0 =>
    rw [hmc] at h
    simp only at h
    by_cases hg : (lookbehindOkWith isBoundaryChar s i && lookaheadOkCode s (i + k0.length)) = true
    · rw [if_pos hg] at h
      cases h
      obtain ⟨c, alphas, ds, r, ht, hk, hc, hal, h1, h10, hds, hds1, hr⟩ :=
        matchCore_eq_some (s.drop i) k hmc
      have hsplit : s.drop i = k ++ r := by
        rw [ht, hk]; simp [List.append_assoc]
      simp only [Bool.and_eq_true] at hg
      simp only [boundedKeyAtCode, Bool.and_eq_true]
      refine ⟨?_, ?_, hg.1, hg.2⟩
      · show isIssueKeyWith isLeadChar k = true
        rw [hk]
        exact isIssueKeyWith_eval isLeadChar c alphas ds hc hal h1 h10 hds hds1
      · simp only [occursAt, decide_eq_true_eq]
        rw [hsplit, List.take_left]
    · rw [if_neg hg] at h; simp at h

theorem matchAt_of_boundedKeyAtCode (s k : List Char) (i : Nat)
    (h : boundedKeyAtCode s k i = true) : matchAt s i = some k := by
  simp only [boundedKeyAtCode, Bool.and_eq_true] at h
  obtain ⟨hkey, hocc, hlb, hla⟩ := h
  obtain ⟨c, alphas, ds, hk, hc, hal, h1, h10, hds, hds1⟩ :=
    isIssueKeyWith_elim isLeadChar k hkey
  set r := s.drop (i + k.length) with hr
  have hocc2 : (s.drop i).take k.length = k := of_decide_eq_true hocc
  have hdrop : (s.drop i).drop k.length = r := by
    rw [hr, List.drop_drop, Nat.add_comm]
  have hsplit : s.drop i = k ++ r := by
    conv_lhs => rw [← List.take_append_drop k.length (s.drop i)]
    rw [hocc2, hdrop]
  have hrhead : ∀ c2 t2, r = c2 :: t2 → isAsciiDigit c2 = false := by
    intro c2 t2 hrc
    have hh : s[i + k.length]? = some c2 := by
      rw [← List.head?_drop, ← hr, hrc]; rfl
    simp only [lookaheadOkCode] at hla
    rcases Bool.or_eq_true_iff.mp hla with hend | hch
    · have hnil : r = [] := by
        rw [hr]
        exact List.drop_eq_nil_of_le (le_of_eq (of_decide_eq_true hend).symm)
      rw [hnil] at hrc; simp at hrc
    · rw [hh] at hch
      simp only at hch
      rcases Bool.or_eq_true_iff.mp hch with hb | hnl
      · exact boundary_not_digit c2 hb
      · simp only [Bool.and_eq_true, decide_eq_true_eq] at hnl
        rw [hnl.1]; decide
  have hcore : matchCore (s.drop i) = some k := by
    have hkr : k ++ r = c :: (alphas ++ '-' :: (ds ++ r)) := by
      rw [hk]; simp [List.append_assoc]
    rw [hsplit, hkr, matchCore_eval c alphas ds r hc hal h1 h10 hds hds1 hrhead, hk]
  unfold matchAt
  rw [hcore]
  simp only
  rw [if_pos (by simp [hlb, hla])]

/-! ## The left-to-right scan -/

theorem scanFrom_eq_some (s : List Char) :
    ∀ fuel i k, scanFrom s i fuel = some k →
      ∃ j, i ≤ j ∧ matchAt s j = some k ∧ ∀ m, i ≤ m → m < j → matchAt s m = none := by
  intro fuel
  induction fuel with
  | zero => intro i k h; simp [scanFrom] at h
  | succ fuel ih =>
    intro i k h
    rw [scanFrom] at h
    cases hm : matchAt s i with
    | some k0 =>
      rw [hm] at h
      simp only at h
      cases h
      exact ⟨i, Nat.le_refl i, hm, fun m h1 h2 => absurd h1 (by omega)⟩
    | none =>
      rw [hm] at h
      simp only at h
      obtain ⟨j, hij, hj, hmin⟩ := ih (i + 1) k h
      refine ⟨j, by omega, hj, fun m h1 h2 => ?_⟩
      by_cases hmi : m = i
      · rw [hmi]; exact hm
      · exact hmin m (by omega) h2

theorem scanFrom_eq_none (s : List Char) :
    ∀ fuel i, scanFrom s i fuel = none → ∀ j, i ≤ j → j < i + fuel → matchAt s j = none := by
  intro fuel
  induction fuel with
  | zero => intro i h j h1 h2; omega
  | succ fuel ih =>
    intro i h j h1 h2
    rw [scanFrom] at h
    cases hm : matchAt s i with
    | some k0 => rw [hm] at h; simp at h
    | none =>
      rw [hm] at h
      simp only at h
      by_cases hji : j = i
      · rw [hji]; exact hm
      · exact ih (i + 1) h j (by omega) (by omega)

theorem matchAt_none_of_ge (s : List Char) (j : Nat) (h : s.length ≤ j) :
    matchAt s j = none := by
  unfold matchAt
  rw [List.drop_eq_nil_of_le h]
  rfl

/-- The extractor returns `some` exactly for the leftmost regex match. -/
theorem get_jira_eq_some (s k : String)
    (h : get_jira_issue_from_branch_name s = some k) :
    ∃ j, matchAt s.data j = some k.data ∧ ∀ m, m < j → matchAt s.data m = none := by
  unfold get_jira_issue_from_branch_name at h
  cases hs : scanFrom s.data 0 (s.data.length + 1) with
  | none => rw [hs] at h; simp at h
  | some kl =>
    rw [hs] at h
    simp only [Option.map_some'] at h
    obtain ⟨j, _, hj, hmin⟩ := scanFrom_eq_some s.data (s.data.length + 1) 0 kl hs
    cases h
    exact ⟨j, hj, fun m hm => hmin m (Nat.zero_le m) hm⟩

/-- When the extractor returns `none`, no position of the branch name
carries a regex match. -/
theorem get_jira_eq_none (s : String)
    (h : get_jira_issue_from_branch_name s = none) :
    ∀ j, matchAt s.data j = none := by
  unfold get_jira_issue_from_branch_name at h
  cases hs : scanFrom s.data 0 (s.data.length + 1) with
  | some kl => rw [hs] at h; simp at h
  | none =>
    intro j
    by_cases hj : j < s.data.length + 1
    · exact scanFrom_eq_none s.data (s.data.length + 1) 0 hs j (Nat.zero_le j) (by omega)
    · exact matchAt_none_of_ge s.data j (by omega)

/-! ## Evaluation lemmas for the orchestrator -/

theorem pipeline_try_auth_fail (env : Env) (config : Config) (request : HttpRequest)
    (hauth : check_payload_secret env.hmacSha256Hex request config = false) :
    pipeline_try env config request =
      (initial_commit_status config,
       Except.error (PipelineError.webhookNotAuthorized "webhook secret do not match")) := by
  unfold pipeline_try
  rw [hauth]
  simp

theorem pipeline_try_json_error (env : Env) (config : Config) (request : HttpRequest)
    (e : String)
    (hauth : check_payload_secret env.hmacSha256Hex request config = true)
    (hjson : request.getJson = Except.error e) :
    pipeline_try env config request =
      (initial_commit_status config, Except.error (PipelineError.otherError e)) := by
  unfold pipeline_try
  rw [hauth, hjson]
  simp

theorem pipeline_try_wrong_kind (env : Env) (config : Config) (request : HttpRequest)
    (payload : Payload)
    (hauth : check_payload_secret env.hmacSha256Hex request config = true)
    (hjson : request.getJson = Except.ok payload)
    (hkind : ¬ get_payload_type payload = some "pull_request") :
    pipeline_try env config request =
      (initial_commit_status config,
       Except.error (PipelineError.otherError
         "this callback only manages PR webhook. Fix the webhook settings.")) := by
  unfold pipeline_try
  rw [hauth, hjson]
  simp [hkind]

theorem pipeline_try_ref_error (env : Env) (config : Config) (request : HttpRequest)
    (payload : Payload) (e : String)
    (hauth : check_payload_secret env.hmacSha256Hex request config = true)
    (hjson : request.getJson = Except.ok payload)
    (hkind : get_payload_type payload = some "pull_request")
    (href : payload.head_ref = Except.error e) :
    pipeline_try env config request =
      (initial_commit_status config, Except.error (PipelineError.otherError e)) := by
  unfold pipeline_try
  rw [hauth, hjson]
  simp [hkind, href]

theorem pipeline_try_ref_null (env : Env) (config : Config) (request : HttpRequest)
    (payload : Payload)
    (hauth : check_payload_secret env.hmacSha256Hex request config = true)
    (hjson : request.getJson = Except.ok payload)
    (hkind : get_payload_type payload = some "pull_request")
    (href : payload.head_ref = Except.ok none) :
    pipeline_try env config request =
      (initial_commit_status config,
       Except.error (PipelineError.otherError
         "Github payload is not a proper JSON: github webhook must send a JSON payload in application/json MIME type. Review the webhook settings")) := by
  unfold pipeline_try
  rw [hauth, hjson]
  simp [hkind, href]

theorem pipeline_try_no_key (env : Env) (config : Config) (request : HttpRequest)
    (payload : Payload) (branch_name sha repo_full_name : String)
    (hauth : check_payload_secret env.hmacSha256Hex request config = true)
    (hjson : request.getJson = Except.ok payload)
    (hkind : get_payload_type payload = some "pull_request")
    (href : payload.head_ref = Except.ok (some branch_name))
    (hsha : payload.head_sha = Except.ok sha)
    (hrepo : payload.head_repo_full_name = Except.ok repo_full_name)
    (hn : get_jira_issue_from_branch_name branch_name = none) :
    pipeline_try env config request =
      ({ initial_commit_status config with
          commit_sha := some sha
          repository_name := some repo_full_name },
       Except.error (PipelineError.notJiraIssue
         ("branch name " ++ branch_name ++ " does not fit the JIRA branch name requirements"))) := by
  unfold pipeline_try
  rw [hauth, hjson]
  simp [hkind, href, hsha, hrepo, hn]

theorem pipeline_try_key_not_found (env : Env) (config : Config) (request : HttpRequest)
    (payload : Payload) (branch_name sha repo_full_name issue_id : String)
    (hauth : check_payload_secret env.hmacSha256Hex request config = true)
    (hjson : request.getJson = Except.ok payload)
    (hkind : get_payload_type payload = some "pull_request")
    (href : payload.head_ref = Except.ok (some branch_name))
    (hsha : payload.head_sha = Except.ok sha)
    (hrepo : payload.head_repo_full_name = Except.ok repo_full_name)
    (hk : get_jira_issue_from_branch_name branch_name = some issue_id)
    (hmiss : is_jira_issue env.jiraLookup config issue_id = false) :
    pipeline_try env config request =
      ({ initial_commit_status config with
          commit_sha := some sha
          repository_name := some repo_full_name },
       Except.error (PipelineError.notJiraIssue
         ("branch name " ++ branch_name ++
           " does not reference a JIRA issue. Issue Id (" ++ issue_id ++ ") not found in JIRA."))) := by
  unfold pipeline_try
  rw [hauth, hjson]
  simp [hkind, href, hsha, hrepo, hk, hmiss]

theorem pipeline_try_success (env : Env) (config : Config) (request : HttpRequest)
    (payload : Payload) (branch_name sha repo_full_name issue_id : String)
    (hauth : check_payload_secret env.hmacSha256Hex request config = true)
    (hjson : request.getJson = Except.ok payload)
    (hkind : get_payload_type payload = some "pull_request")
    (href : payload.head_ref = Except.ok (some branch_name))
    (hsha : payload.head_sha = Except.ok sha)
    (hrepo : payload.head_repo_full_name = Except.ok repo_full_name)
    (hk : get_jira_issue_from_branch_name branch_name = some issue_id)
    (hfound : is_jira_issue env.jiraLookup config issue_id = true) :
    pipeline_try env config request =
      ({ initial_commit_status config with
          commit_sha := some sha
          repository_name := some repo_full_name
          message := "branch name (" ++ branch_name ++ ") references a found Jira issue (" ++ issue_id ++ ")"
          status := "success" },
       Except.ok ()) := by
  unfold pipeline_try
  rw [hauth, hjson]
  simp [hkind, href, hsha, hrepo, hk, hfound]

theorem pipeline_response_of_auth_fail (env : Env) (config : Config) (request : HttpRequest)
    (st : CommitStatus) (m : String)
    (hpt : pipeline_try env config request =
      (st, Except.error (PipelineError.webhookNotAuthorized m))) :
    pipeline_response env config request =
      { commit_status := { st with message := m }, body := ResponseBody.message m, code := 403 } := by
  unfold pipeline_response
  rw [hpt]

theorem pipeline_response_of_not_jira (env : Env) (config : Config) (request : HttpRequest)
    (st : CommitStatus) (m : String)
    (hpt : pipeline_try env config request =
      (st, Except.error (PipelineError.notJiraIssue m))) :
    pipeline_response env config request =
      { commit_status := { st with message := m }, body := ResponseBody.message m, code := 404 } := by
  unfold pipeline_response
  rw [hpt]

theorem pipeline_response_of_other (env : Env) (config : Config) (request : HttpRequest)
    (st : CommitStatus) (m : String)
    (hpt : pipeline_try env config request =
      (st, Except.error (PipelineError.otherError m))) :
    pipeline_response env config request =
      { commit_status := { st with message := m }, body := ResponseBody.message m, code := 400 } := by
  unfold pipeline_response
  rw [hpt]

theorem pipeline_response_of_ok (env : Env) (config : Config) (request : HttpRequest)
    (st : CommitStatus)
    (hpt : pipeline_try env config request = (st, Except.ok ())) :
    pipeline_response env config request =
      { commit_status := st, body := ResponseBody.ok "OK", code := 200 } := by
  unfold pipeline_response
  rw [hpt]

theorem handler_of_code_ne_403 (env : Env) (config : Config) (request : HttpRequest)
    (h : ¬ (pipeline_response env config request).code = 403) :
    (jira_github_pr_check env config request).pushed =
      [(pipeline_response env config request).commit_status] := by
  unfold jira_github_pr_check push_github_commit_status
  rw [if_neg h]
  cases env.pushStatus (pipeline_response env config request).commit_status <;> rfl

theorem handler_of_push_ok (env : Env) (config : Config) (request : HttpRequest)
    (h : ¬ (pipeline_response env config request).code = 403)
    (hp : env.pushStatus (pipeline_response env config request).commit_status = Except.ok ()) :
    jira_github_pr_check env config request =
      { body := (pipeline_response env config request).body
        code := (pipeline_response env config request).code
        pushed := [(pipeline_response env config request).commit_status] } := by
  unfold jira_github_pr_check push_github_commit_status
  rw [if_neg h, hp]

theorem handler_of_push_error (env : Env) (config : Config) (request : HttpRequest)
    (e : String)
    (h : ¬ (pipeline_response env config request).code = 403)
    (hp : env.pushStatus (pipeline_response env config request).commit_status = Except.error e) :
    jira_github_pr_check env config request =
      { body := ResponseBody.message e
        code := 500
        pushed := [(pipeline_response env config request).commit_status] } := by
  unfold jira_github_pr_check push_github_commit_status
  rw [if_neg h, hp]

/-! ## Claim theorems -/

/-- C1 (counterexample): the claim's pattern and boundary classes do not
match the code.  First conjunct: the extractor returns `1BC-123`, whose
lead character is a digit, so the returned substring does not match the
claim's pattern `[A-Z][A-Za-z]{1,10}-[0-9]+` — yet the claim requires every
returned substring to match it.  Second conjunct: `ABC-123` occurs in
`ABC-123<tab>x` bounded by string start and a whitespace character, which
the claim says suffices for extraction, yet the extractor returns `none`
(the code's boundary class is the literal space only). -/
theorem C1_counterexample :
    (get_jira_issue_from_branch_name "1BC-123" = some "1BC-123" ∧
      isIssueKeySpec ("1BC-123".data) = false) ∧
    (boundedKeyAtSpec ("ABC-123\tx".data) ("ABC-123".data) 0 = true ∧
      get_jira_issue_from_branch_name "ABC-123\tx" = none) :=
  ⟨⟨by decide, by decide⟩, by decide, by decide⟩

/-- C1 (amended): for every branch name, the extractor returns a substring
iff that substring matches `[0-9A-Z][A-Za-z]{1,10}-[0-9]+` and occurs in
the branch name bounded on the left by a space, hyphen, underscore or the
string's start, and on the right by a space, hyphen, underscore, the
string's end, or a newline that is the string's final character; in
particular a key embedded in a longer hyphenated token is still extracted,
and when no such bounded substring exists the extractor returns `none`. -/
theorem C1_extractor_bounded_key_characterization (s : String) :
    (∀ k, get_jira_issue_from_branch_name s = some k →
      isIssueKeyCode k.data = true ∧ ∃ i, boundedKeyAtCode s.data k.data i = true) ∧
    (get_jira_issue_from_branch_name s = none →
      ∀ k i, boundedKeyAtCode s.data k i = false) := by
  constructor
  · intro k hk
    obtain ⟨j, hj, _⟩ := get_jira_eq_some s k hk
    have hb := matchAt_eq_some s.data k.data j hj
    have hb2 := hb
    simp only [boundedKeyAtCode, Bool.and_eq_true] at hb2
    exact ⟨hb2.1, j, hb⟩
  · intro hn k i
    by_contra hcon
    rw [Bool.not_eq_false] at hcon
    have hm := matchAt_of_boundedKeyAtCode s.data k i hcon
    rw [get_jira_eq_none s hn i] at hm
    exact absurd hm (by simp)

/-- Witness for the amended C1: the hyphen-embedded key of the claim's own
example is extracted and is a bounded code-pattern occurrence. -/
theorem C1_extractor_witness :
    get_jira_issue_from_branch_name "prefix-ABC-123-suffix" = some "ABC-123" ∧
    (isIssueKeyCode ("ABC-123".data) = true ∧
      ∃ i, boundedKeyAtCode ("prefix-ABC-123-suffix".data) ("ABC-123".data) i = true) :=
  ⟨by decide,
   (C1_extractor_bounded_key_characterization "prefix-ABC-123-suffix").1 "ABC-123" (by decide)⟩

/-- C9: the extractor is deterministic (it is a function of the branch
name), and any returned key is the match at the least scan position: every
earlier position carries no match. -/
theorem C9_extractor_deterministic_first_match (s : String) :
    get_jira_issue_from_branch_name s = get_jira_issue_from_branch_name s ∧
    (∀ k, get_jira_issue_from_branch_name s = some k →
      ∃ j, matchAt s.data j = some k.data ∧ ∀ m, m < j → matchAt s.data m = none) :=
  ⟨rfl, fun k hk => get_jira_eq_some s k hk⟩

/-- Witness for C9: with two keys present, the first in scan order wins. -/
theorem C9_extractor_witness :
    get_jira_issue_from_branch_name "ABC-1 DEF-2" = some "ABC-1" ∧
    ∃ j, matchAt ("ABC-1 DEF-2".data) j = some ("ABC-1".data) ∧
      ∀ m, m < j → matchAt ("ABC-1 DEF-2".data) m = none :=
  ⟨by decide,
   (C9_extractor_deterministic_first_match "ABC-1 DEF-2").2 "ABC-1" (by decide)⟩

/-- C10: the extractor is a total function: on every input, the empty
string included, it returns an ordinary value — either a key or `none` —
and never an error (the embedding is a total Lean function, mirroring that
`regex.findall` cannot raise and the code's indexing is guarded). -/
theorem C10_extractor_total (s : String) :
    get_jira_issue_from_branch_name "" = none ∧
    (get_jira_issue_from_branch_name s = none ∨
      ∃ k, get_jira_issue_from_branch_name s = some k) := by
  refine ⟨by decide, ?_⟩
  cases h : get_jira_issue_from_branch_name s with
  | none => exact Or.inl rfl
  | some k => exact Or.inr ⟨k, rfl⟩

/-- C2: with no configured secret the verifier authorizes every request,
header or not; with a configured secret it authorizes exactly the requests
whose `X-Hub-Signature-256` header equals `"sha256=" ++` the hex HMAC-SHA256
digest of the raw body keyed by the secret (a missing or mismatched header
is refused). -/
theorem C2_check_payload_secret_characterization
    (hmacHex : String → String → String) (request : HttpRequest) (config : Config) :
    (config.github_webhook_secret = none →
      check_payload_secret hmacHex request config = true) ∧
    (∀ secret, config.github_webhook_secret = some secret →
      (check_payload_secret hmacHex request config = true ↔
        request.xHubSignature256 = some ("sha256=" ++ hmacHex secret request.rawBody))) := by
  constructor
  · intro h
    unfold check_payload_secret
    rw [h]
  · intro secret h
    unfold check_payload_secret
    rw [h]
    cases hx : request.xHubSignature256 with
    | none => simp
    | some gh =>
      simp only [decide_eq_true_eq, Option.some.injEq]
      constructor
      · intro he; rw [he]
      · intro he; rw [he]

/-- Witness for C2: a secretless configuration authorizes a headerless
request, and a correctly signed request is authorized under a secret. -/
theorem C2_check_payload_secret_witness :
    check_payload_secret (fun key msg => key ++ ":" ++ msg)
      { xHubSignature256 := none, rawBody := "body", getJson := Except.error "x" }
      { jira_domain := none, log_level := 20, jira_email := none, jira_token := none,
        github_token := none, github_webhook_secret := none, callback_url := none } = true ∧
    check_payload_secret (fun key msg => key ++ ":" ++ msg)
      { xHubSignature256 := some "sha256=s:body", rawBody := "body", getJson := Except.error "x" }
      { jira_domain := none, log_level := 20, jira_email := none, jira_token := none,
        github_token := none, github_webhook_secret := some "s", callback_url := none } = true :=
  ⟨(C2_check_payload_secret_characterization (fun key msg => key ++ ":" ++ msg)
      { xHubSignature256 := none, rawBody := "body", getJson := Except.error "x" }
      { jira_domain := none, log_level := 20, jira_email := none, jira_token := none,
        github_token := none, github_webhook_secret := none, callback_url := none }).1 rfl,
   ((C2_check_payload_secret_characterization (fun key msg => key ++ ":" ++ msg)
      { xHubSignature256 := some "sha256=s:body", rawBody := "body", getJson := Except.error "x" }
      { jira_domain := none, log_level := 20, jira_email := none, jira_token := none,
        github_token := none, github_webhook_secret := some "s", callback_url := none }).2
      "s" rfl).mpr (by decide)⟩

/-- C4: the existence checker returns `true` exactly when the tracker
lookup finishes without an exception (a definitive "found"), and any raised
exception — whatever its message — yields `false` instead of propagating. -/
theorem C4_is_jira_issue_collapses_errors
    (jiraLookup : Config → String → Except String Unit) (config : Config) (issue_id : String) :
    (is_jira_issue jiraLookup config issue_id = true ↔
      jiraLookup config issue_id = Except.ok ()) ∧
    (∀ e, jiraLookup config issue_id = Except.error e →
      is_jira_issue jiraLookup config issue_id = false) := by
  unfold is_jira_issue
  cases h : jiraLookup config issue_id with
  | ok u => cases u; simp
  | error e => simp

/-- Witness for C4: a failing lookup (tracker unreachable, not found,
permission denied, ...) yields `false`. -/
theorem C4_is_jira_issue_witness :
    is_jira_issue (fun _ _ => Except.error "HTTP 404")
      { jira_domain := none, log_level := 20, jira_email := none, jira_token := none,
        github_token := none, github_webhook_secret := none, callback_url := none }
      "ABC-123" = false :=
  (C4_is_jira_issue_collapses_errors (fun _ _ => Except.error "HTTP 404")
      { jira_domain := none, log_level := 20, jira_email := none, jira_token := none,
        github_token := none, github_webhook_secret := none, callback_url := none }
      "ABC-123").2 "HTTP 404" rfl

/-- C3: the commit status is pushed at most once per request, and a request
that fails signature verification gets response code 403 with no push
attempted at all. -/
theorem C3_push_at_most_once_suppressed_on_403
    (env : Env) (config : Config) (request : HttpRequest) :
    (jira_github_pr_check env config request).pushed.length ≤ 1 ∧
    (check_payload_secret env.hmacSha256Hex request config = false →
      (jira_github_pr_check env config request).code = 403 ∧
      (jira_github_pr_check env config request).pushed = []) := by
  constructor
  · unfold jira_github_pr_check push_github_commit_status
    split
    · simp
    · split <;> simp
  · intro hauth
    have hresp := pipeline_response_of_auth_fail env config request
      (initial_commit_status config) "webhook secret do not match"
      (pipeline_try_auth_fail env config request hauth)
    unfold jira_github_pr_check
    rw [hresp]
    simp

/-- Witness for C3: a mismatched signature under a configured secret gives
a 403 with no push attempt. -/
theorem C3_witness :
    check_payload_secret
      (fun key msg => key ++ ":" ++ msg)
      { xHubSignature256 := none, rawBody := "body", getJson := Except.error "x" }
      { jira_domain := none, log_level := 20, jira_email := none, jira_token := none,
        github_token := none, github_webhook_secret := some "s", callback_url := none } = false ∧
    (jira_github_pr_check
      { hmacSha256Hex := fun key msg => key ++ ":" ++ msg,
        jiraLookup := fun _ _ => Except.ok (),
        pushStatus := fun _ => Except.ok () }
      { jira_domain := none, log_level := 20, jira_email := none, jira_token := none,
        github_token := none, github_webhook_secret := some "s", callback_url := none }
      { xHubSignature256 := none, rawBody := "body", getJson := Except.error "x" }).code = 403 ∧
    (jira_github_pr_check
      { hmacSha256Hex := fun key msg => key ++ ":" ++ msg,
        jiraLookup := fun _ _ => Except.ok (),
        pushStatus := fun _ => Except.ok () }
      { jira_domain := none, log_level := 20, jira_email := none, jira_token := none,
        github_token := none, github_webhook_secret := some "s", callback_url := none }
      { xHubSignature256 := none, rawBody := "body", getJson := Except.error "x" }).pushed = [] :=
  ⟨rfl,
   (C3_push_at_most_once_suppressed_on_403
      { hmacSha256Hex := fun key msg => key ++ ":" ++ msg,
        jiraLookup := fun _ _ => Except.ok (),
        pushStatus := fun _ => Except.ok () }
      { jira_domain := none, log_level := 20, jira_email := none, jira_token := none,
        github_token := none, github_webhook_secret := some "s", callback_url := none }
      { xHubSignature256 := none, rawBody := "body", getJson := Except.error "x" }).2 rfl⟩

/-- C5: on an authenticated pull-request with the head fields resolved,
both "no key-shaped substring in the branch name" and "extracted key not
verified in the tracker" map to HTTP 404, with a pushed commit status of
state "failure" whose message embeds the branch name (and, in the tracker
case, the key). -/
theorem C5_not_referenced_both_404
    (env : Env) (config : Config) (request : HttpRequest) (payload : Payload)
    (branch_name sha repo_full_name : String)
    (hauth : check_payload_secret env.hmacSha256Hex request config = true)
    (hjson : request.getJson = Except.ok payload)
    (hkind : get_payload_type payload = some "pull_request")
    (href : payload.head_ref = Except.ok (some branch_name))
    (hsha : payload.head_sha = Except.ok sha)
    (hrepo : payload.head_repo_full_name = Except.ok repo_full_name) :
    (get_jira_issue_from_branch_name branch_name = none →
      (pipeline_response env config request).code = 404 ∧
      (jira_github_pr_check env config request).pushed =
        [(pipeline_response env config request).commit_status] ∧
      (pipeline_response env config request).commit_status.status = "failure" ∧
      (∃ a b, (pipeline_response env config request).commit_status.message =
        a ++ branch_name ++ b) ∧
      (env.pushStatus (pipeline_response env config request).commit_status = Except.ok () →
        (jira_github_pr_check env config request).code = 404)) ∧
    (∀ issue_id, get_jira_issue_from_branch_name branch_name = some issue_id →
      is_jira_issue env.jiraLookup config issue_id = false →
      (pipeline_response env config request).code = 404 ∧
      (jira_github_pr_check env config request).pushed =
        [(pipeline_response env config request).commit_status] ∧
      (pipeline_response env config request).commit_status.status = "failure" ∧
      (∃ a b c2, (pipeline_response env config request).commit_status.message =
        a ++ branch_name ++ b ++ issue_id ++ c2) ∧
      (env.pushStatus (pipeline_response env config request).commit_status = Except.ok () →
        (jira_github_pr_check env config request).code = 404)) := by
  constructor
  · intro hn
    have hresp := pipeline_response_of_not_jira env config request _ _
      (pipeline_try_no_key env config request payload branch_name sha repo_full_name
        hauth hjson hkind href hsha hrepo hn)
    have hne : ¬ (pipeline_response env config request).code = 403 := by
      rw [hresp]; simp
    refine ⟨by rw [hresp], handler_of_code_ne_403 env config request hne, ?_, ?_, ?_⟩
    · rw [hresp]; simp [initial_commit_status]
    · rw [hresp]
      exact ⟨"branch name ", " does not fit the JIRA branch name requirements", rfl⟩
    · intro hpo
      rw [handler_of_push_ok env config request hne hpo, hresp]
  · intro issue_id hk hmiss
    have hresp := pipeline_response_of_not_jira env config request _ _
      (pipeline_try_key_not_found env config request payload branch_name sha repo_full_name
        issue_id hauth hjson hkind href hsha hrepo hk hmiss)
    have hne : ¬ (pipeline_response env config request).code = 403 := by
      rw [hresp]; simp
    refine ⟨by rw [hresp], handler_of_code_ne_403 env config request hne, ?_, ?_, ?_⟩
    · rw [hresp]; simp [initial_commit_status]
    · rw [hresp]
      exact ⟨"branch name ", " does not reference a JIRA issue. Issue Id (",
        ") not found in JIRA.", rfl⟩
    · intro hpo
      rw [handler_of_push_ok env config request hne hpo, hresp]

/-- C6: whenever the status push is attempted and itself fails, the
response code becomes 500 — whatever the pipeline's own code was — and the
response body carries the push error's message. -/
theorem C6_push_failure_escalates_to_500
    (env : Env) (config : Config) (request : HttpRequest) (e : String)
    (hcode : ¬ (pipeline_response env config request).code = 403)
    (hpush : env.pushStatus (pipeline_response env config request).commit_status =
      Except.error e) :
    (jira_github_pr_check env config request).code = 500 ∧
    (jira_github_pr_check env config request).body = ResponseBody.message e := by
  rw [handler_of_push_error env config request e hcode hpush]
  exact ⟨rfl, rfl⟩

/-- C7: when authentication passes but the pipeline fails before the
pull-request head is read (unparseable body, wrong payload kind, or a
missing/null branch ref), the push is still attempted, with the initialized
status whose commit sha and repository name are both `none`. -/
theorem C7_early_failure_pushes_initialized_status
    (env : Env) (config : Config) (request : HttpRequest)
    (hauth : check_payload_secret env.hmacSha256Hex request config = true)
    (hfail :
      (∃ e, request.getJson = Except.error e) ∨
      (∃ payload, request.getJson = Except.ok payload ∧
        ¬ get_payload_type payload = some "pull_request") ∨
      (∃ payload e, request.getJson = Except.ok payload ∧
        get_payload_type payload = some "pull_request" ∧
        payload.head_ref = Except.error e) ∨
      (∃ payload, request.getJson = Except.ok payload ∧
        get_payload_type payload = some "pull_request" ∧
        payload.head_ref = Except.ok none)) :
    (jira_github_pr_check env config request).pushed =
      [(pipeline_response env config request).commit_status] ∧
    (pipeline_response env config request).commit_status.commit_sha = none ∧
    (pipeline_response env config request).commit_status.repository_name = none := by
  have key : ∃ m, pipeline_response env config request =
      { commit_status := { initial_commit_status config with message := m }
        body := ResponseBody.message m
        code := 400 } := by
    rcases hfail with ⟨e, hj⟩ | ⟨p, hj, hk⟩ | ⟨p, e, hj, hk, hr⟩ | ⟨p, hj, hk, hr⟩
    · exact ⟨e, pipeline_response_of_other env config request _ e
        (pipeline_try_json_error env config request e hauth hj)⟩
    · exact ⟨_, pipeline_response_of_other env config request _ _
        (pipeline_try_wrong_kind env config request p hauth hj hk)⟩
    · exact ⟨e, pipeline_response_of_other env config request _ e
        (pipeline_try_ref_error env config request p e hauth hj hk hr)⟩
    · exact ⟨_, pipeline_response_of_other env config request _ _
        (pipeline_try_ref_null env config request p hauth hj hk hr)⟩
  obtain ⟨m, hm⟩ := key
  refine ⟨?_, ?_, ?_⟩
  · refine handler_of_code_ne_403 env config request ?_
    rw [hm]; simp
  · rw [hm]; simp [initial_commit_status]
  · rw [hm]; simp [initial_commit_status]

/-- C8: on the full success path — authenticated, pull-request payload,
head fields resolved, a key extracted from the branch name, the tracker
confirming it, and the push succeeding — the response is 200 with body
"OK", and the pushed commit status has state "success" and a message
embedding both the branch name and the issue key. -/
theorem C8_success_path
    (env : Env) (config : Config) (request : HttpRequest) (payload : Payload)
    (branch_name sha repo_full_name issue_id : String)
    (hauth : check_payload_secret env.hmacSha256Hex request config = true)
    (hjson : request.getJson = Except.ok payload)
    (hkind : get_payload_type payload = some "pull_request")
    (href : payload.head_ref = Except.ok (some branch_name))
    (hsha : payload.head_sha = Except.ok sha)
    (hrepo : payload.head_repo_full_name = Except.ok repo_full_name)
    (hk : get_jira_issue_from_branch_name branch_name = some issue_id)
    (hfound : is_jira_issue env.jiraLookup config issue_id = true)
    (hpush : env.pushStatus (pipeline_response env config request).commit_status =
      Except.ok ()) :
    (jira_github_pr_check env config request).code = 200 ∧
    (jira_github_pr_check env config request).body = ResponseBody.ok "OK" ∧
    (jira_github_pr_check env config request).pushed =
      [(pipeline_response env config request).commit_status] ∧
    (pipeline_response env config request).commit_status.status = "success" ∧
    (pipeline_response env config request).commit_status.message =
      "branch name (" ++ branch_name ++ ") references a found Jira issue (" ++ issue_id ++ ")" := by
  have hresp := pipeline_response_of_ok env config request _
    (pipeline_try_success env config request payload branch_name sha repo_full_name issue_id
      hauth hjson hkind href hsha hrepo hk hfound)
  have hne : ¬ (pipeline_response env config request).code = 403 := by
    rw [hresp]; simp
  rw [handler_of_push_ok env config request hne hpush, hresp]
  exact ⟨rfl, rfl, rfl, rfl, rfl⟩

/-- Witness for C5: the branch `hotfix-misc-cleanup` has no key-shaped
substring, and the pipeline maps it to 404 / a pushed "failure" status. -/
theorem C5_witness :
    get_jira_issue_from_branch_name "hotfix-misc-cleanup" = none ∧
    ((pipeline_response envOkFix configFix requestNoKeyFix).code = 404 ∧
      (jira_github_pr_check envOkFix configFix requestNoKeyFix).pushed =
        [(pipeline_response envOkFix configFix requestNoKeyFix).commit_status] ∧
      (pipeline_response envOkFix configFix requestNoKeyFix).commit_status.status = "failure" ∧
      (∃ a b, (pipeline_response envOkFix configFix requestNoKeyFix).commit_status.message =
        a ++ "hotfix-misc-cleanup" ++ b) ∧
      (envOkFix.pushStatus
          (pipeline_response envOkFix configFix requestNoKeyFix).commit_status = Except.ok () →
        (jira_github_pr_check envOkFix configFix requestNoKeyFix).code = 404)) :=
  ⟨by decide,
   (C5_not_referenced_both_404 envOkFix configFix requestNoKeyFix payloadNoKeyFix
      "hotfix-misc-cleanup" "deadbeef" "octo/demo" rfl rfl rfl rfl rfl rfl).1 (by decide)⟩

/-- Witness for C6: an unparseable body gives pipeline code 400, the push
fails, and the response escalates to 500 with the push error's message. -/
theorem C6_witness :
    (jira_github_pr_check envPushErrFix configFix requestBadJsonFix).code = 500 ∧
    (jira_github_pr_check envPushErrFix configFix requestBadJsonFix).body =
      ResponseBody.message "bad credentials" :=
  C6_push_failure_escalates_to_500 envPushErrFix configFix requestBadJsonFix "bad credentials"
    (by decide) rfl

/-- Witness for C7: an authenticated request with an unparseable body still
gets a push attempt, with sha and repository name both `none`. -/
theorem C7_witness :
    (jira_github_pr_check envOkFix configFix requestBadJsonFix).pushed =
      [(pipeline_response envOkFix configFix requestBadJsonFix).commit_status] ∧
    (pipeline_response envOkFix configFix requestBadJsonFix).commit_status.commit_sha = none ∧
    (pipeline_response envOkFix configFix requestBadJsonFix).commit_status.repository_name =
      none :=
  C7_early_failure_pushes_initialized_status envOkFix configFix requestBadJsonFix rfl
    (Or.inl ⟨"bad json", rfl⟩)

/-- Witness for C8: the full success path on branch `ABC-123-login` with a
tracker that confirms `ABC-123`. -/
theorem C8_witness :
    (jira_github_pr_check envOkFix configFix requestFix).code = 200 ∧
    (jira_github_pr_check envOkFix configFix requestFix).body = ResponseBody.ok "OK" ∧
    (jira_github_pr_check envOkFix configFix requestFix).pushed =
      [(pipeline_response envOkFix configFix requestFix).commit_status] ∧
    (pipeline_response envOkFix configFix requestFix).commit_status.status = "success" ∧
    (pipeline_response envOkFix configFix requestFix).commit_status.message =
      "branch name (" ++ "ABC-123-login" ++ ") references a found Jira issue (" ++
        "ABC-123" ++ ")" :=
  C8_success_path envOkFix configFix requestFix payloadFix "ABC-123-login" "deadbeef"
    "octo/demo" "ABC-123" rfl rfl rfl rfl rfl rfl (by decide) rfl rfl

end JiraPrCheck
